import Mathlib

/-!
Verification of the MineriaET deployment orchestrator (`deploy.sh`), the
generated nginx reverse-proxy configuration, and the prediction-form payload
logic of `web/src/app/page.tsx`.

The deploy script is embedded as an executable state machine over an abstract
`World` supplying the outcomes of the external commands (gcloud, docker,
docker-compose); the nginx `default.conf` heredoc is embedded as a pure
string-rendering function; the React form handlers are embedded as pure
transition functions on the form state.
-/

/- ========================================================================
   Definitions, part 1: the nginx default.conf template (deploy.sh, Step 3
   heredoc, lines 161-181).  The heredoc writes a fixed two-route template:
   `location /api/` proxying to `${API_URL}` and `location /` proxying to
   `${WEB_URL}`, each with the same three proxy_set_header lines.  Literal
   braces are written \x7b/\x7d.
   ======================================================================== -/

/-- The three `proxy_set_header` lines shared by both location blocks of the
heredoc: Host, X-Real-IP, X-Forwarded-For. -/
def hdrLines : String :=
  "        proxy_set_header Host $host;\n" ++
  "        proxy_set_header X-Real-IP $remote_addr;\n" ++
  "        proxy_set_header X-Forwarded-For $proxy_add_x_forwarded_for;\n"

/-- One `location` block of the generated default.conf: matches paths starting
with `pfx` and proxies to `target`, forwarding the three headers. -/
def locationBlock (pfx target : String) : String :=
  "    location " ++ pfx ++ " \x7b\n" ++
  "        proxy_pass " ++ target ++ ";\n" ++
  hdrLines ++
  "    \x7d\n"

/-- Opening of the generated default.conf: server block, `listen 8080;`, and
the comment preceding the `/api/` block. -/
def confHeader : String :=
  "server \x7b\n" ++
  "    listen 8080;\n" ++
  "\n" ++
  "    # Proxy any request to /api/ to the Cloud Run API service\n"

/-- The text between the two location blocks: a blank line and the comment
preceding the `/` block. -/
def confSep : String :=
  "\n" ++
  "    # Proxy all other requests to the Cloud Run Web service\n"

/-- Closing brace of the server block. -/
def confFooter : String := "\x7d\n"

/-- The full default.conf text the deploy script writes, as a function of the
two resolved service URLs substituted for `${API_URL}` and `${WEB_URL}`. -/
def defaultConf (apiUrl webUrl : String) : String :=
  confHeader ++ locationBlock "/api/" apiUrl ++ confSep ++
    locationBlock "/" webUrl ++ confFooter

/-- The ordered route list realised by the heredoc: `/api/` to the api URL
first, then the root catch-all to the web URL. -/
def deployRoutes (apiUrl webUrl : String) : List (String × String) :=
  [("/api/", apiUrl), ("/", webUrl)]

/- ========================================================================
   Definitions, part 2: deploy.sh as a state machine.
   The script (set -euo pipefail) resolves PROJECT_ID, aborts if it is empty,
   allocates a temp dir (mktemp -d), registers `trap cleanup EXIT`, checks the
   argument count, and dispatches on the mode: `local` runs docker-compose up,
   `deploy` runs the build/push/deploy/resolve pipeline for api, web and then
   nginx, anything else prints usage and exits 1.  External commands are
   abstracted by a `World` giving each command's exit code and output; the
   script's observable actions are recorded as an `Effect` trace.  Under
   set -e a failing command makes the script exit with that command's code.
   (The REGION default of line 48 has no failure path and is not modelled.)
   ======================================================================== -/

/-- Observable actions of deploy.sh, in the order the script performs them. -/
inductive Effect where
  | resolveProject
  | mkTemp
  | setTrap
  | buildImage (image : String)
  | pushImage (image : String)
  | deployService (svc : String)
  | describeService (svc : String)
  | writeConf (apiUrl webUrl : String)
  | writeNginxDockerfile
  | composeUp
  | runCleanup
  | printProjectError
  | printUsage
  | printUrlError (svc : String)
  | printSummary (nginxUrl apiUrl webUrl : String)
  deriving DecidableEq

/-- Outcomes of the external commands the script invokes: `project` is what
`gcloud config get-value project` prints (empty when unset), the `*Code`
fields are exit codes (0 = success), `describeOut` is the stdout of
`gcloud run services describe <svc> --format "value(status.url)"`. -/
structure World where
  project : String
  buildCode : String → Nat
  pushCode : String → Nat
  deployCode : String → Nat
  describeCode : String → Nat
  describeOut : String → String
  composeCode : Nat

/-- Running state of the script: effects so far, whether `trap cleanup EXIT`
has been registered, and whether the mktemp workspace currently exists. -/
structure RunState where
  effects : List Effect
  trapOn : Bool
  tempExists : Bool

/-- Append one observable action to the trace. -/
def addEff (st : RunState) (e : Effect) : RunState :=
  { st with effects := st.effects ++ [e] }

/-- Outcome of a completed (uninterrupted) run. -/
structure ScriptResult where
  exitCode : Nat
  effects : List Effect
  tempExists : Bool

/-- Process exit: bash fires the EXIT trap exactly when one was registered,
which runs `cleanup` and removes the workspace. -/
def processExit (st : RunState) (code : Nat) : ScriptResult :=
  if st.trapOn then
    { exitCode := code, effects := st.effects ++ [Effect.runCleanup], tempExists := false }
  else
    { exitCode := code, effects := st.effects, tempExists := st.tempExists }

/-- Run one external command recorded as `e` with exit code `code`; under
`set -e` a nonzero code terminates the script with that code, otherwise the
continuation `k` runs. -/
def step (code : Nat) (e : Effect) (k : RunState → RunState × Nat) (st : RunState) :
    RunState × Nat :=
  if code ≠ 0 then (addEff st e, code) else k (addEff st e)

/-- The `if [[ -z "$URL" ]]; then echo ...; exit 1; fi` check after resolving
the URL of service `svc`. -/
def urlGate (url svc : String) (k : RunState → RunState × Nat) (st : RunState) :
    RunState × Nat :=
  if url = "" then (addEff st (Effect.printUrlError svc), 1) else k st

/-- Run a command that cannot fail (the `cat > file <<EOF` heredocs). -/
def tell (e : Effect) (k : RunState → RunState × Nat) (st : RunState) :
    RunState × Nat :=
  k (addEff st e)

/-- Steps 1-7 of deploy mode (deploy.sh lines 99-238): build/push/deploy/
resolve api, then web, then generate default.conf and the nginx Dockerfile in
the temp dir, build/push the nginx image, deploy it, resolve its URL, print
the summary and exit 0. -/
def deployCore (w : World) : RunState → RunState × Nat :=
  let imageApi := "gcr.io/" ++ w.project ++ "/api"
  let imageWeb := "gcr.io/" ++ w.project ++ "/web"
  let imageNginx := "gcr.io/" ++ w.project ++ "/nginx"
  let apiUrl := w.describeOut "api"
  let webUrl := w.describeOut "web"
  let nginxUrl := w.describeOut "nginx"
  step (w.buildCode imageApi) (Effect.buildImage imageApi) <|
  step (w.pushCode imageApi) (Effect.pushImage imageApi) <|
  step (w.deployCode "api") (Effect.deployService "api") <|
  step (w.describeCode "api") (Effect.describeService "api") <|
  urlGate apiUrl "api" <|
  step (w.buildCode imageWeb) (Effect.buildImage imageWeb) <|
  step (w.pushCode imageWeb) (Effect.pushImage imageWeb) <|
  step (w.deployCode "web") (Effect.deployService "web") <|
  step (w.describeCode "web") (Effect.describeService "web") <|
  urlGate webUrl "web" <|
  tell (Effect.writeConf apiUrl webUrl) <|
  tell Effect.writeNginxDockerfile <|
  step (w.buildCode imageNginx) (Effect.buildImage imageNginx) <|
  step (w.pushCode imageNginx) (Effect.pushImage imageNginx) <|
  step (w.deployCode "nginx") (Effect.deployService "nginx") <|
  step (w.describeCode "nginx") (Effect.describeService "nginx") <|
  urlGate nginxUrl "nginx" <|
  fun st => (addEff st (Effect.printSummary nginxUrl apiUrl webUrl), 0)

/-- The whole script up to (but not including) process exit: PROJECT_ID
resolution and check, mktemp, trap registration, argument check, and mode
dispatch, mirroring deploy.sh lines 48-242. -/
def runCore (w : World) (args : List String) : RunState × Nat :=
  let st : RunState := ⟨[], false, false⟩
  let st := addEff st Effect.resolveProject
  if w.project = "" then (addEff st Effect.printProjectError, 1) else
  let st := { addEff st Effect.mkTemp with tempExists := true }
  let st := { addEff st Effect.setTrap with trapOn := true }
  if args.length ≠ 1 then (addEff st Effect.printUsage, 1) else
  let mode := args.headD ""
  if mode = "local" then
    let st := addEff st Effect.composeUp
    if w.composeCode ≠ 0 then (st, w.composeCode) else (st, 0)
  else if mode = "deploy" then
    deployCore w st
  else (addEff st Effect.printUsage, 1)

/-- A complete run of deploy.sh: execute the script, then exit (firing the
EXIT trap when registered). -/
def runScript (w : World) (args : List String) : ScriptResult :=
  let r := runCore w args
  processExit r.1 r.2

/-- The command trace of an uninterrupted run, before process exit. -/
def bodyTrace (w : World) (args : List String) : List Effect :=
  (runCore w args).1.effects

/-- An external interrupt kills the script right after its first `k` commands;
the workspace survives exactly when mktemp has already run but the EXIT trap
has not yet been registered (no trap fires on exit then). -/
def tempSurvivesInterrupt (w : World) (args : List String) (k : Nat) : Prop :=
  Effect.mkTemp ∈ (bodyTrace w args).take k ∧
    Effect.setTrap ∉ (bodyTrace w args).take k

instance (w : World) (args : List String) (k : Nat) :
    Decidable (tempSurvivesInterrupt w args k) :=
  inferInstanceAs (Decidable (Effect.mkTemp ∈ (bodyTrace w args).take k ∧
    Effect.setTrap ∉ (bodyTrace w args).take k))

/-- A world in which every external command succeeds. -/
def allOkWorld : World where
  project := "demo"
  buildCode := fun _ => 0
  pushCode := fun _ => 0
  deployCode := fun _ => 0
  describeCode := fun _ => 0
  describeOut := fun s =>
    if s = "api" then "https://api-xyz.example"
    else if s = "web" then "https://web-xyz.example"
    else "https://nginx-xyz.example"
  composeCode := 0

/-- Like `allOkWorld` but `gcloud config get-value project` prints nothing. -/
def noProjectWorld : World := { allOkWorld with project := "" }

/-- Like `allOkWorld` but the api service resolves to an empty URL. -/
def emptyApiWorld : World :=
  { allOkWorld with
    describeOut := fun s => if s = "api" then "" else allOkWorld.describeOut s }

/-- Exit code is nonzero and the only writeConf effects in the trace were
already present in the base trace (i.e. the run added no synthesis step). -/
def NoConfWrite (base : List Effect) (r : RunState × Nat) : Prop :=
  r.2 ≠ 0 ∧ ∀ a b, Effect.writeConf a b ∈ r.1.effects → Effect.writeConf a b ∈ base

/-- The EXIT trap stays registered in the final state of a pipeline run. -/
def TrapTrue (r : RunState × Nat) : Prop := r.1.trapOn = true

/- ========================================================================
   Definitions, part 3: the prediction form of web/src/app/page.tsx.
   Form state mirrors the six useState hooks; number fields are Option Int
   with none standing for the JS NaN.  The rainTomorrow checkbox is commented
   out of the JSX (page.tsx lines 107-126), so no UI event can change that
   state.  onChange of each spinner computes
   Math.max(lo, Math.min(hi, parseInt(e.target.value || "0"))), and
   handleSubmit builds the JSON payload from the current state, with
   RainTomorrow := rainTomorrow ? 0 : 0.
   ======================================================================== -/

/-- Longest leading digit run, as consumed by JS parseInt. -/
def leadDigits (cs : List Char) : List Char := cs.takeWhile Char.isDigit

/-- Decimal value of a digit run. -/
def digitsToNat (cs : List Char) : Nat :=
  cs.foldl (fun acc c => 10 * acc + (c.toNat - 48)) 0

/-- JS `parseInt(s)` on decimal input (the only form a number input produces):
skip leading whitespace, accept an optional sign, read the longest digit run,
and return NaN (`none`) when no digits follow. -/
def jsParseInt (s : String) : Option Int :=
  match s.data.dropWhile Char.isWhitespace with
  | [] => none
  | c :: t =>
    if c = '-' then
      if leadDigits t = [] then none
      else some (-(digitsToNat (leadDigits t) : Int))
    else if c = '+' then
      if leadDigits t = [] then none
      else some ((digitsToNat (leadDigits t) : Int))
    else
      if leadDigits (c :: t) = [] then none
      else some ((digitsToNat (leadDigits (c :: t)) : Int))

/-- `Math.max lo (Math.min hi x)` with NaN propagation: both Math.min and
Math.max return NaN when an argument is NaN. -/
def jsClamp (lo hi : Int) : Option Int → Option Int
  | none => none
  | some x => some (max lo (min hi x))

/-- The onChange handler of one numeric spinner:
`Math.max(lo, Math.min(hi, parseInt(e.target.value || "0")))`. -/
def numericOnChange (lo hi : Int) (s : String) : Option Int :=
  jsClamp lo hi (jsParseInt (if s = "" then "0" else s))

/-- Split a character list into its leading digit run and the rest. -/
def splitDigits (cs : List Char) : List Char × List Char :=
  (cs.takeWhile Char.isDigit, cs.dropWhile Char.isDigit)

/-- Optionally signed nonempty digit run, consuming the whole list (the
exponent part of an HTML valid floating-point number). -/
def signedDigitsOk (cs : List Char) : Bool :=
  let cs2 := match cs with
    | c :: t => if c = '+' ∨ c = '-' then t else c :: t
    | [] => []
  let p := splitDigits cs2
  !p.1.isEmpty && p.2.isEmpty

/-- Optional exponent part: empty, or `e`/`E` followed by signed digits. -/
def expOk : List Char → Bool
  | [] => true
  | c :: t => if c = 'e' ∨ c = 'E' then signedDigitsOk t else false

/-- Optional fraction then optional exponent. -/
def fracExpOk : List Char → Bool
  | [] => true
  | c :: t =>
    if c = '.' then
      let p := splitDigits t
      !p.1.isEmpty && expOk p.2
    else expOk (c :: t)

/-- Strip one optional leading minus sign. -/
def stripNeg : List Char → List Char
  | [] => []
  | c :: t => if c = '-' then t else c :: t

/-- The WHATWG grammar of a valid floating-point number, the only nonempty
values an `<input type="number">` exposes to the onChange handler. -/
def validFloatStr (s : String) : Bool :=
  let p := splitDigits (stripNeg s.data)
  !p.1.isEmpty && fracExpOk p.2

/-- The six useState hooks of the page. -/
structure FormState where
  rainTomorrow : Bool
  rainToday : Bool
  rainfall : Option Int
  humidity3pm : Option Int
  cloud3pm : Option Int
  sunshine : Option Int

/-- All useState initial values: false / false / 0 / 0 / 0 / 0. -/
def initialFormState : FormState :=
  ⟨false, false, some 0, some 0, some 0, some 0⟩

/-- The user interactions the rendered form exposes.  There is no event for
rainTomorrow: its checkbox block is commented out of the JSX. -/
inductive UiEvent where
  | changeRainfall (value : String)
  | changeHumidity (value : String)
  | changeCloud (value : String)
  | changeSunshine (value : String)
  | toggleRainToday (checked : Bool)
  deriving DecidableEq

/-- The onChange handlers of page.tsx: each spinner clamps the parsed value
into its declared range (0-371, 0-45, 0-8, 0-17). -/
def applyEvent (st : FormState) : UiEvent → FormState
  | .changeRainfall s => { st with rainfall := numericOnChange 0 371 s }
  | .changeHumidity s => { st with humidity3pm := numericOnChange 0 45 s }
  | .changeCloud s => { st with cloud3pm := numericOnChange 0 8 s }
  | .changeSunshine s => { st with sunshine := numericOnChange 0 17 s }
  | .toggleRainToday b => { st with rainToday := b }

/-- Fold a sequence of user interactions over the form state. -/
def applyEvents (st : FormState) (evs : List UiEvent) : FormState :=
  evs.foldl applyEvent st

/-- The JSON body handleSubmit posts to /api/predict. -/
structure Payload where
  RainTomorrow : Int
  Rainfall : Option Int
  Humidity3pm : Option Int
  RainToday : Int
  Cloud3pm : Option Int
  Sunshine : Option Int

/-- The payload literal of handleSubmit (page.tsx lines 34-41):
`RainTomorrow: rainTomorrow ? 0 : 0`, `RainToday: rainToday ? 1 : 0`, and the
four numeric states verbatim. -/
def mkPayload (st : FormState) : Payload where
  RainTomorrow := if st.rainTomorrow then 0 else 0
  Rainfall := st.rainfall
  Humidity3pm := st.humidity3pm
  RainToday := if st.rainToday then 1 else 0
  Cloud3pm := st.cloud3pm
  Sunshine := st.sunshine

/-- A JS number is a genuine integer within `[lo, hi]` (NaN is out of range). -/
def InRange (lo hi : Int) : Option Int → Prop
  | some n => lo ≤ n ∧ n ≤ hi
  | none => False

/-- A change event carries a value an `<input type="number">` can expose:
the empty string or a valid floating-point number string. -/
def eventValid : UiEvent → Prop
  | .changeRainfall s => s = "" ∨ validFloatStr s = true
  | .changeHumidity s => s = "" ∨ validFloatStr s = true
  | .changeCloud s => s = "" ∨ validFloatStr s = true
  | .changeSunshine s => s = "" ∨ validFloatStr s = true
  | .toggleRainToday _ => True

instance : DecidablePred eventValid := by
  intro e
  cases e <;> simp [eventValid] <;> infer_instance

/-- The four numeric states sit inside their declared ranges. -/
def FormInv (st : FormState) : Prop :=
  InRange 0 371 st.rainfall ∧ InRange 0 45 st.humidity3pm ∧
    InRange 0 8 st.cloud3pm ∧ InRange 0 17 st.sunshine

/- ========================================================================
   Theorems.  Helper lemmas first, then one theorem per claim (with witness
   or counterexample theorems where required).
   ======================================================================== -/

set_option maxRecDepth 8192 in
/-- Sanity: the rendered template at the spec example addresses is exactly the
heredoc text of deploy.sh lines 162-180 with the two URLs substituted. -/
theorem defaultConf_literal :
    defaultConf "https://api-xyz.example" "https://web-xyz.example" =
      "server \x7b\n    listen 8080;\n\n    # Proxy any request to /api/ to the Cloud Run API service\n    location /api/ \x7b\n        proxy_pass https://api-xyz.example;\n        proxy_set_header Host $host;\n        proxy_set_header X-Real-IP $remote_addr;\n        proxy_set_header X-Forwarded-For $proxy_add_x_forwarded_for;\n    \x7d\n\n    # Proxy all other requests to the Cloud Run Web service\n    location / \x7b\n        proxy_pass https://web-xyz.example;\n        proxy_set_header Host $host;\n        proxy_set_header X-Real-IP $remote_addr;\n        proxy_set_header X-Forwarded-For $proxy_add_x_forwarded_for;\n    \x7d\n\x7d\n" := by
  rfl

/-- Weakest-precondition rule for one set -e command. -/
theorem step_spec (P : RunState × Nat → Prop) (code : Nat) (e : Effect)
    (k : RunState → RunState × Nat) (st : RunState)
    (hfail : code ≠ 0 → P (addEff st e, code))
    (hok : code = 0 → P (k (addEff st e))) :
    P (step code e k st) := by
  unfold step
  split_ifs with h
  · exact hfail h
  · exact hok (not_not.mp h)

/-- Weakest-precondition rule for an empty-URL check. -/
theorem urlGate_spec (P : RunState × Nat → Prop) (url svc : String)
    (k : RunState → RunState × Nat) (st : RunState)
    (hempty : url = "" → P (addEff st (Effect.printUrlError svc), 1))
    (hok : url ≠ "" → P (k st)) :
    P (urlGate url svc k st) := by
  unfold urlGate
  split_ifs with h
  · exact hempty h
  · exact hok h

/-- Weakest-precondition rule for an infallible command. -/
theorem tell_spec (P : RunState × Nat → Prop) (e : Effect)
    (k : RunState → RunState × Nat) (st : RunState)
    (h : P (k (addEff st e))) :
    P (tell e k st) := h

set_option maxHeartbeats 2000000 in
/-- If either backend resolves to an empty URL, deploy mode exits nonzero and
appends no writeConf effect to the trace. -/
theorem deployCore_noSynth (w : World) (st : RunState)
    (h : w.describeOut "api" = "" ∨ w.describeOut "web" = "") :
    NoConfWrite st.effects (deployCore w st) := by
  unfold deployCore
  refine step_spec (NoConfWrite st.effects) _ _ _ _ (fun hc => ⟨hc, by simp [addEff]⟩) (fun _ => ?_)
  refine step_spec (NoConfWrite st.effects) _ _ _ _ (fun hc => ⟨hc, by simp [addEff]⟩) (fun _ => ?_)
  refine step_spec (NoConfWrite st.effects) _ _ _ _ (fun hc => ⟨hc, by simp [addEff]⟩) (fun _ => ?_)
  refine step_spec (NoConfWrite st.effects) _ _ _ _ (fun hc => ⟨hc, by simp [addEff]⟩) (fun _ => ?_)
  refine urlGate_spec (NoConfWrite st.effects) _ _ _ _ (fun _ => ⟨by simp, by simp [addEff]⟩) (fun hapi => ?_)
  refine step_spec (NoConfWrite st.effects) _ _ _ _ (fun hc => ⟨hc, by simp [addEff]⟩) (fun _ => ?_)
  refine step_spec (NoConfWrite st.effects) _ _ _ _ (fun hc => ⟨hc, by simp [addEff]⟩) (fun _ => ?_)
  refine step_spec (NoConfWrite st.effects) _ _ _ _ (fun hc => ⟨hc, by simp [addEff]⟩) (fun _ => ?_)
  refine step_spec (NoConfWrite st.effects) _ _ _ _ (fun hc => ⟨hc, by simp [addEff]⟩) (fun _ => ?_)
  refine urlGate_spec (NoConfWrite st.effects) _ _ _ _ (fun _ => ⟨by simp, by simp [addEff]⟩) (fun hweb => ?_)
  rcases h with h | h
  · exact absurd h hapi
  · exact absurd h hweb

set_option maxHeartbeats 2000000 in
/-- deploy mode never unregisters the EXIT trap. -/
theorem deployCore_trapOn (w : World) (st : RunState) (h : st.trapOn = true) :
    TrapTrue (deployCore w st) := by
  unfold deployCore
  repeat first
    | refine step_spec TrapTrue _ _ _ _ (fun _ => by simp [TrapTrue, addEff, h]) (fun _ => ?_)
    | refine urlGate_spec TrapTrue _ _ _ _ (fun _ => by simp [TrapTrue, addEff, h]) (fun _ => ?_)
    | refine tell_spec TrapTrue _ _ _ ?_
    | simp [TrapTrue, addEff, h]

/-- Process exit preserves the script's exit code. -/
theorem processExit_exitCode (st : RunState) (c : Nat) :
    (processExit st c).exitCode = c := by
  unfold processExit
  split_ifs <;> rfl

/-- The effects of a completed run are the body's effects plus, at most, the
EXIT-trap cleanup. -/
theorem mem_processExit {e : Effect} {st : RunState} {c : Nat}
    (h : e ∈ (processExit st c).effects) :
    e ∈ st.effects ∨ e = Effect.runCleanup := by
  unfold processExit at h
  split_ifs at h
  · simp at h
    rcases h with h | h
    · exact Or.inl h
    · exact Or.inr h
  · exact Or.inl h

/-- With a project configured, `./deploy.sh deploy` reaches the deploy
pipeline with the prologue trace and both mktemp and the trap done. -/
theorem runCore_deployMode (w : World) (hp : w.project ≠ "") :
    runCore w ["deploy"] =
      deployCore w ⟨[Effect.resolveProject, Effect.mkTemp, Effect.setTrap], true, true⟩ := by
  simp [runCore, addEff, hp]

/-- Every completed run of the script (success or any failure) ends with the
temp workspace removed. -/
theorem runScript_tempExists_false (w : World) (args : List String) :
    (runScript w args).tempExists = false := by
  unfold runScript
  by_cases hp : w.project = ""
  · simp [runCore, processExit, addEff, hp]
  · by_cases hl : args.length ≠ 1
    · simp [runCore, processExit, addEff, hp, hl]
    · by_cases hm1 : args.head?.getD "" = "local"
      · by_cases hc : w.composeCode ≠ 0 <;>
          simp [runCore, processExit, addEff, hp, hl, hm1, hc]
      · by_cases hm2 : args.head?.getD "" = "deploy"
        · have htrap := deployCore_trapOn w
            ⟨[Effect.resolveProject, Effect.mkTemp, Effect.setTrap], true, true⟩ rfl
          unfold TrapTrue at htrap
          simp [runCore, processExit, addEff, hp, hl, hm1, hm2, htrap]
        · simp [runCore, processExit, addEff, hp, hl, hm1, hm2]

/-- C1: if either backend's address resolution returns an empty string, the
deploy run exits nonzero and the default.conf synthesis step never executes,
so synthesis never observes an empty address. -/
theorem emptyBackendUrl_aborts_before_synthesis (w : World)
    (h : w.describeOut "api" = "" ∨ w.describeOut "web" = "") :
    (runScript w ["deploy"]).exitCode ≠ 0 ∧
      ∀ a b, Effect.writeConf a b ∉ (runScript w ["deploy"]).effects := by
  by_cases hp : w.project = ""
  · unfold runScript
    simp [runCore, processExit, addEff, hp]
  · have hns := deployCore_noSynth w
      ⟨[Effect.resolveProject, Effect.mkTemp, Effect.setTrap], true, true⟩ h
    unfold runScript
    rw [runCore_deployMode w hp]
    obtain ⟨h1, h2⟩ := hns
    refine ⟨by rw [processExit_exitCode]; exact h1, ?_⟩
    intro a b hmem
    rcases mem_processExit hmem with hm | hm
    · have := h2 a b hm
      simp at this
    · simp at hm

/-- Witness for C1: in a world where the api URL resolves empty, the deploy
run exits nonzero and writes no default.conf. -/
theorem emptyBackendUrl_aborts_before_synthesis_witness :
    (runScript emptyApiWorld ["deploy"]).exitCode ≠ 0 ∧
      Effect.writeConf "" "https://web-xyz.example" ∉
        (runScript emptyApiWorld ["deploy"]).effects :=
  ⟨(emptyBackendUrl_aborts_before_synthesis emptyApiWorld (Or.inl (by decide))).1,
   (emptyBackendUrl_aborts_before_synthesis emptyApiWorld (Or.inl (by decide))).2
      "" "https://web-xyz.example"⟩

/-- C2: for any pair of non-empty resolved addresses, the synthesized
configuration has a `/api/` location block proxying to the api address and a
`/` location block proxying to the web address, the `/api/` block textually
precedes the `/` block, and every location block forwards the Host, X-Real-IP
and X-Forwarded-For headers. -/
theorem synthesized_conf_routes_and_headers (A B : String)
    (hA : A ≠ "") (hB : B ≠ "") :
    (∃ u mid v, defaultConf A B =
        u ++ locationBlock "/api/" A ++ mid ++ locationBlock "/" B ++ v) ∧
    (∃ x y, locationBlock "/api/" A = x ++ ("proxy_pass " ++ A ++ ";") ++ y) ∧
    (∃ x y, locationBlock "/" B = x ++ ("proxy_pass " ++ B ++ ";") ++ y) ∧
    (∀ pfx t, ∃ x y, locationBlock pfx t =
        x ++ "proxy_set_header Host $host;" ++ y) ∧
    (∀ pfx t, ∃ x y, locationBlock pfx t =
        x ++ "proxy_set_header X-Real-IP $remote_addr;" ++ y) ∧
    (∀ pfx t, ∃ x y, locationBlock pfx t =
        x ++ "proxy_set_header X-Forwarded-For $proxy_add_x_forwarded_for;" ++ y) := by
  refine ⟨⟨confHeader, confSep, confFooter, rfl⟩, ?_, ?_, ?_, ?_, ?_⟩
  · refine ⟨"    location /api/ \x7b\n        ", "\n" ++ hdrLines ++ "    \x7d\n", ?_⟩
    simp [locationBlock, hdrLines, String.append_assoc]
    conv_rhs => rw [← String.append_assoc]
    simp
  · refine ⟨"    location / \x7b\n        ", "\n" ++ hdrLines ++ "    \x7d\n", ?_⟩
    simp [locationBlock, hdrLines, String.append_assoc]
    conv_rhs => rw [← String.append_assoc]
    simp
  · intro pfx t
    exact ⟨"    location " ++ pfx ++ " \x7b\n" ++ "        proxy_pass " ++ t ++ ";\n" ++ "        ",
      "\n        proxy_set_header X-Real-IP $remote_addr;\n        proxy_set_header X-Forwarded-For $proxy_add_x_forwarded_for;\n    \x7d\n", by
      simp [locationBlock, hdrLines, String.append_assoc]⟩
  · intro pfx t
    exact ⟨"    location " ++ pfx ++ " \x7b\n" ++ "        proxy_pass " ++ t ++ ";\n" ++ "        proxy_set_header Host $host;\n        ",
      "\n        proxy_set_header X-Forwarded-For $proxy_add_x_forwarded_for;\n    \x7d\n", by
      simp [locationBlock, hdrLines, String.append_assoc]⟩
  · intro pfx t
    exact ⟨"    location " ++ pfx ++ " \x7b\n" ++ "        proxy_pass " ++ t ++ ";\n" ++ "        proxy_set_header Host $host;\n        proxy_set_header X-Real-IP $remote_addr;\n        ",
      "\n    \x7d\n", by
      simp [locationBlock, hdrLines, String.append_assoc]⟩

/-- Witness for C2 at the spec's example addresses. -/
theorem synthesized_conf_routes_and_headers_witness :
    (∃ u mid v, defaultConf "https://api-xyz.example" "https://web-xyz.example" =
        u ++ locationBlock "/api/" "https://api-xyz.example" ++ mid ++
          locationBlock "/" "https://web-xyz.example" ++ v) ∧
    (∃ x y, locationBlock "/api/" "https://api-xyz.example" =
        x ++ ("proxy_pass " ++ "https://api-xyz.example" ++ ";") ++ y) :=
  ⟨(synthesized_conf_routes_and_headers "https://api-xyz.example"
      "https://web-xyz.example" (by decide) (by decide)).1,
   (synthesized_conf_routes_and_headers "https://api-xyz.example"
      "https://web-xyz.example" (by decide) (by decide)).2.1⟩

/-- C3 counterexample: an external interrupt delivered right after
`NGINX_BUILD_DIR="$(mktemp -d)"` (line 63) but before `trap cleanup EXIT`
(line 68) leaves the workspace behind, so the claim that the workspace is
removed on every exit path fails. -/
theorem temp_workspace_survives_pretrap_interrupt :
    tempSurvivesInterrupt allOkWorld ["deploy"] 2 := by
  decide

/-- C3 (amended): the workspace is removed on every completed exit path -
success or any set -e stage failure - and on every interrupt path where the
interrupt arrives after the EXIT trap is registered. -/
theorem cleanup_on_completed_and_posttrap_paths (w : World)
    (args : List String) (k : Nat)
    (h : Effect.setTrap ∈ (bodyTrace w args).take k) :
    (runScript w args).tempExists = false ∧ ¬ tempSurvivesInterrupt w args k :=
  ⟨runScript_tempExists_false w args, fun hc => hc.2 h⟩

/-- Witness for the amended C3: interrupting the all-success deploy run after
five commands (past the trap registration) leaks nothing, and the completed
run leaks nothing. -/
theorem cleanup_on_completed_and_posttrap_paths_witness :
    (runScript allOkWorld ["deploy"]).tempExists = false ∧
      ¬ tempSurvivesInterrupt allOkWorld ["deploy"] 5 :=
  cleanup_on_completed_and_posttrap_paths allOkWorld ["deploy"] 5 (by decide)

/-- C4: when gcloud reports no configured project, the script prints the
configuration error and exits 1 having performed no build, push or deploy. -/
theorem missing_project_aborts_without_side_effects (w : World)
    (args : List String) (h : w.project = "") :
    (runScript w args).exitCode = 1 ∧
    Effect.printProjectError ∈ (runScript w args).effects ∧
    ∀ s, Effect.buildImage s ∉ (runScript w args).effects ∧
         Effect.pushImage s ∉ (runScript w args).effects ∧
         Effect.deployService s ∉ (runScript w args).effects := by
  unfold runScript
  simp [runCore, processExit, addEff, h]

/-- Witness for C4 in the project-less world. -/
theorem missing_project_aborts_without_side_effects_witness :
    (runScript noProjectWorld ["deploy"]).exitCode = 1 ∧
    Effect.printProjectError ∈ (runScript noProjectWorld ["deploy"]).effects ∧
    Effect.buildImage "gcr.io/demo/api" ∉ (runScript noProjectWorld ["deploy"]).effects :=
  ⟨(missing_project_aborts_without_side_effects noProjectWorld ["deploy"] rfl).1,
   (missing_project_aborts_without_side_effects noProjectWorld ["deploy"] rfl).2.1,
   ((missing_project_aborts_without_side_effects noProjectWorld ["deploy"] rfl).2.2
      "gcr.io/demo/api").1⟩

/-- C5: the synthesizer's route sequence is non-empty, its only root-prefixed
route is the catch-all to the web URL, that route is last, and the rendered
document places the root location block last (only the closing brace follows
it). -/
theorem proxyConfig_invariant_of_synthesizer (a w : String) :
    deployRoutes a w ≠ [] ∧
    (deployRoutes a w).filter (fun r => r.1 == "/") = [("/", w)] ∧
    (deployRoutes a w).getLast? = some ("/", w) ∧
    defaultConf a w =
      confHeader ++ locationBlock "/api/" a ++ confSep ++
        locationBlock "/" w ++ confFooter ∧
    (∃ u, defaultConf a w = u ++ locationBlock "/" w ++ confFooter) := by
  refine ⟨by simp [deployRoutes], by simp [deployRoutes], by simp [deployRoutes], rfl,
    ⟨confHeader ++ locationBlock "/api/" a ++ confSep, rfl⟩⟩

/-- C6: synthesis is deterministic - equal route lists (the listen port is
the constant 8080) render to byte-identical configuration text. -/
theorem synthesize_deterministic (a b a2 b2 : String)
    (h : deployRoutes a b = deployRoutes a2 b2) :
    defaultConf a b = defaultConf a2 b2 := by
  simp [deployRoutes] at h
  rw [h.1, h.2]

/-- Witness for C6 at the spec's example addresses. -/
theorem synthesize_deterministic_witness :
    defaultConf "https://api-xyz.example" "https://web-xyz.example" =
      defaultConf "https://api-xyz.example" "https://web-xyz.example" :=
  synthesize_deterministic "https://api-xyz.example" "https://web-xyz.example"
    "https://api-xyz.example" "https://web-xyz.example" rfl

/-- C7 counterexample: with no gcloud project configured, an invocation with
zero arguments exits 1 printing the configuration error, not the usage text,
because the project check precedes the argument-count check. -/
theorem usage_not_printed_when_project_unset :
    Effect.printUsage ∉ (runScript noProjectWorld []).effects ∧
    Effect.printProjectError ∈ (runScript noProjectWorld []).effects ∧
    (runScript noProjectWorld []).exitCode = 1 := by
  decide

/-- C7 (amended): when the project identity resolves non-empty, every
invocation whose argument list is not exactly `local` or `deploy` prints the
usage text and exits 1. -/
theorem bad_args_print_usage_when_project_set (w : World) (args : List String)
    (hp : w.project ≠ "") (h1 : args ≠ ["local"]) (h2 : args ≠ ["deploy"]) :
    Effect.printUsage ∈ (runScript w args).effects ∧
      (runScript w args).exitCode = 1 := by
  unfold runScript
  by_cases hl : args.length = 1
  · obtain ⟨a, rfl⟩ := List.length_eq_one.mp hl
    have ha1 : a ≠ "local" := fun hh => h1 (by rw [hh])
    have ha2 : a ≠ "deploy" := fun hh => h2 (by rw [hh])
    simp [runCore, processExit, addEff, hp, ha1, ha2]
  · simp [runCore, processExit, addEff, hp, hl]

/-- Witness for the amended C7: an unknown mode prints usage and exits 1. -/
theorem bad_args_print_usage_when_project_set_witness :
    Effect.printUsage ∈ (runScript allOkWorld ["frobnicate"]).effects ∧
      (runScript allOkWorld ["frobnicate"]).exitCode = 1 :=
  bad_args_print_usage_when_project_set allOkWorld ["frobnicate"]
    (by decide) (by decide) (by decide)

/-- C8 counterexample: `./deploy.sh local` does not skip project resolution -
the gcloud project lookup runs first, and with no project configured local
mode exits 1 with the configuration error without ever running
docker-compose. -/
theorem local_mode_resolves_project_and_can_abort :
    Effect.resolveProject ∈ (runScript noProjectWorld ["local"]).effects ∧
    (runScript noProjectWorld ["local"]).exitCode = 1 ∧
    Effect.composeUp ∉ (runScript noProjectWorld ["local"]).effects := by
  decide

/-- C8 (amended): once the project check passes, local mode performs no
build, push, deploy, describe or synthesis action - it only runs
docker-compose up and exits with its code - but project resolution has
happened on every local run. -/
theorem local_mode_only_compose_after_project_check (w : World)
    (hp : w.project ≠ "") :
    Effect.composeUp ∈ (runScript w ["local"]).effects ∧
    Effect.resolveProject ∈ (runScript w ["local"]).effects ∧
    (runScript w ["local"]).exitCode = w.composeCode ∧
    (∀ s, Effect.buildImage s ∉ (runScript w ["local"]).effects ∧
          Effect.pushImage s ∉ (runScript w ["local"]).effects ∧
          Effect.deployService s ∉ (runScript w ["local"]).effects ∧
          Effect.describeService s ∉ (runScript w ["local"]).effects) ∧
    (∀ a b, Effect.writeConf a b ∉ (runScript w ["local"]).effects) := by
  unfold runScript
  by_cases hc : w.composeCode = 0 <;>
    simp [runCore, processExit, addEff, hp, hc]

/-- Witness for the amended C8 in the all-success world. -/
theorem local_mode_only_compose_after_project_check_witness :
    Effect.composeUp ∈ (runScript allOkWorld ["local"]).effects ∧
    (runScript allOkWorld ["local"]).exitCode = allOkWorld.composeCode ∧
    Effect.buildImage "gcr.io/demo/api" ∉ (runScript allOkWorld ["local"]).effects :=
  ⟨(local_mode_only_compose_after_project_check allOkWorld (by decide)).1,
   (local_mode_only_compose_after_project_check allOkWorld (by decide)).2.2.1,
   ((local_mode_only_compose_after_project_check allOkWorld (by decide)).2.2.2.1
      "gcr.io/demo/api").1⟩

/-- A digit character is not whitespace. -/
theorem digit_not_ws (c : Char) (h : c.isDigit = true) : c.isWhitespace = false := by
  revert h
  simp [Char.isDigit, Char.isWhitespace]
  intro h1 h2
  rcases Decidable.em (c = ' ') with hc | hc
  · subst hc; simp_all
  · rcases Decidable.em (c = '\t') with hc2 | hc2
    · subst hc2; simp_all
    · rcases Decidable.em (c = '\n') with hc3 | hc3
      · subst hc3; simp_all
      · rcases Decidable.em (c = '\r') with hc4 | hc4
        · subst hc4; simp_all
        · simp_all

/-- parseInt never yields NaN on a valid floating-point number string. -/
theorem jsParseInt_of_valid (s : String) (h : validFloatStr s = true) :
    ∃ n : Int, jsParseInt s = some n := by
  unfold validFloatStr splitDigits stripNeg at h
  cases hd : s.data with
  | nil =>
    rw [hd] at h
    simp at h
  | cons c t =>
    rw [hd] at h
    simp only [Bool.and_eq_true, Bool.not_eq_eq_eq_not, Bool.not_true] at h
    obtain ⟨h1, _⟩ := h
    unfold jsParseInt
    rw [hd]
    by_cases hc : c = '-'
    · rw [if_pos hc] at h1
      have hne : leadDigits t ≠ [] := by
        intro he
        unfold leadDigits at he
        rw [he] at h1
        simp at h1
      have hdw : List.dropWhile Char.isWhitespace ('-' :: t) = '-' :: t := by
        rw [List.dropWhile_cons]
        simp
      subst hc
      simp [hdw, hne]
    · rw [if_neg hc] at h1
      have hdig : c.isDigit = true := by
        rcases hdig2 : c.isDigit with hF | hT
        · rw [List.takeWhile_cons, hdig2] at h1
          simp at h1
        · rfl
      have hplus : c ≠ '+' := by
        intro he
        rw [he] at hdig
        simp at hdig
      have hne : leadDigits (c :: t) ≠ [] := by
        unfold leadDigits
        rw [List.takeWhile_cons, hdig]
        simp
      have hdw : List.dropWhile Char.isWhitespace (c :: t) = c :: t := by
        rw [List.dropWhile_cons, digit_not_ws c hdig]
        simp
      simp [hdw, hc, hplus, hne]

/-- The clamped onChange value of a spinner lands inside `[lo, hi]` whenever
the input value is one a number input can expose. -/
theorem numericOnChange_inRange (lo hi : Int) (hlh : lo ≤ hi) (s : String)
    (hs : s = "" ∨ validFloatStr s = true) :
    InRange lo hi (numericOnChange lo hi s) := by
  rcases hs with rfl | hs
  · show InRange lo hi (jsClamp lo hi (jsParseInt (if ("" : String) = "" then "0" else "")))
    rw [if_pos rfl, show jsParseInt "0" = some 0 from rfl]
    exact ⟨le_max_left _ _, max_le hlh (min_le_left _ _)⟩
  · have hne : s ≠ "" := by
      intro he
      rw [he] at hs
      simp [validFloatStr, splitDigits, stripNeg] at hs
    obtain ⟨n, hn⟩ := jsParseInt_of_valid s hs
    unfold numericOnChange
    rw [if_neg hne, hn]
    exact ⟨le_max_left _ _, max_le hlh (min_le_left _ _)⟩

/-- One user interaction preserves the range invariant of the form state. -/
theorem applyEvent_inv (st : FormState) (e : UiEvent)
    (hst : FormInv st) (he : eventValid e) :
    FormInv (applyEvent st e) := by
  obtain ⟨i1, i2, i3, i4⟩ := hst
  cases e with
  | changeRainfall s =>
      exact ⟨numericOnChange_inRange 0 371 (by norm_num) s he, i2, i3, i4⟩
  | changeHumidity s =>
      exact ⟨i1, numericOnChange_inRange 0 45 (by norm_num) s he, i3, i4⟩
  | changeCloud s =>
      exact ⟨i1, i2, numericOnChange_inRange 0 8 (by norm_num) s he, i4⟩
  | changeSunshine s =>
      exact ⟨i1, i2, i3, numericOnChange_inRange 0 17 (by norm_num) s he⟩
  | toggleRainToday b =>
      exact ⟨i1, i2, i3, i4⟩

/-- Any interaction sequence preserves the range invariant. -/
theorem applyEvents_inv (st : FormState) (evs : List UiEvent)
    (hst : FormInv st) (h : ∀ e ∈ evs, eventValid e) :
    FormInv (applyEvents st evs) := by
  induction evs generalizing st with
  | nil => exact hst
  | cons e evs ih =>
      exact ih (applyEvent st e)
        (applyEvent_inv st e hst (h e (by simp)))
        (fun e2 he2 => h e2 (by simp [he2]))

/-- C9: the RainTomorrow field of the submitted payload is 0 for every form
state, regardless of the rainTomorrow checkbox state, because handleSubmit
writes `rainTomorrow ? 0 : 0`. -/
theorem payload_rainTomorrow_always_zero (st : FormState) :
    (mkPayload st).RainTomorrow = 0 := by
  simp [mkPayload]

/-- C10: after any sequence of user interactions whose change values are ones
a number input can expose, the payload built at submission keeps every
numeric field in its declared range: Rainfall in [0,371], Humidity3pm in
[0,45], Cloud3pm in [0,8], Sunshine in [0,17]. -/
theorem payload_numeric_fields_in_range (evs : List UiEvent)
    (h : ∀ e ∈ evs, eventValid e) :
    InRange 0 371 (mkPayload (applyEvents initialFormState evs)).Rainfall ∧
    InRange 0 45 (mkPayload (applyEvents initialFormState evs)).Humidity3pm ∧
    InRange 0 8 (mkPayload (applyEvents initialFormState evs)).Cloud3pm ∧
    InRange 0 17 (mkPayload (applyEvents initialFormState evs)).Sunshine := by
  have hinit : FormInv initialFormState :=
    ⟨⟨le_refl 0, by norm_num⟩, ⟨le_refl 0, by norm_num⟩,
      ⟨le_refl 0, by norm_num⟩, ⟨le_refl 0, by norm_num⟩⟩
  exact applyEvents_inv initialFormState evs hinit h

/-- Witness for C10: an out-of-range entry, a checkbox toggle and a negative
entry still leave every payload field in range. -/
theorem payload_numeric_fields_in_range_witness :
    InRange 0 371 (mkPayload (applyEvents initialFormState
      [UiEvent.changeRainfall "999.5", UiEvent.toggleRainToday true,
       UiEvent.changeSunshine "-4"])).Rainfall ∧
    InRange 0 45 (mkPayload (applyEvents initialFormState
      [UiEvent.changeRainfall "999.5", UiEvent.toggleRainToday true,
       UiEvent.changeSunshine "-4"])).Humidity3pm ∧
    InRange 0 8 (mkPayload (applyEvents initialFormState
      [UiEvent.changeRainfall "999.5", UiEvent.toggleRainToday true,
       UiEvent.changeSunshine "-4"])).Cloud3pm ∧
    InRange 0 17 (mkPayload (applyEvents initialFormState
      [UiEvent.changeRainfall "999.5", UiEvent.toggleRainToday true,
       UiEvent.changeSunshine "-4"])).Sunshine :=
  payload_numeric_fields_in_range
    [UiEvent.changeRainfall "999.5", UiEvent.toggleRainToday true,
     UiEvent.changeSunshine "-4"] (by decide)
